import Mathlib

/-!
# WhatsApp bridge — session registry and lifecycle manager

A shallow embedding of the session-handling logic of `src/index.js` (an
Express server bridging HTTP requests to whatsapp-web.js client instances).
Pure state (the `sessions` map, each session record) is carried explicitly;
the external adapter (whatsapp-web.js `Client`) is represented by an opaque
numeric handle, and the adapter's asynchronous activity (lifecycle events,
the outcome of `getState()` and `sendMessage()`) is supplied as input to
the endpoint functions, mirroring the points where the JS code awaits it.
-/

namespace Bridge

/-- Session status strings used by `src/index.js`:
`'disconnected' | 'connecting' | 'qr_pending' | 'connected'`. -/
inductive Status where
  | disconnected
  | connecting
  | qr_pending
  | connected
deriving DecidableEq, Repr

/-- One session record, as created by `getSession` (src/index.js:31-44):
`{ client, qr, status, phone, webhookUrl, lastActivity }`.
The adapter handle (`client`) is an opaque numeric id; `none` models JS `null`. -/
structure Session where
  client : Option Nat
  qr : Option String
  status : Status
  phone : Option String
  webhookUrl : Option String
  lastActivity : Nat
deriving DecidableEq, Repr

/-- The fresh record built by `getSession` for a never-seen connection id
(src/index.js:33-40). -/
def freshSession (now : Nat) : Session :=
  { client := none, qr := none, status := .disconnected, phone := none
    webhookUrl := none, lastActivity := now }

/-- Global server state: the `sessions` registry (association list, insertion
order), a counter supplying fresh adapter-handle ids (each `new Client(...)`
in the JS code), the list of handles ever constructed tagged with their
connection id, and the handles on which `client.destroy()` was called. -/
structure St where
  sessions : List (String × Session)
  nextHandle : Nat
  constructed : List (Nat × String)
  destroyed : List Nat
deriving DecidableEq, Repr

/-- The state at process start: empty registry, no handles. -/
def St.empty : St :=
  { sessions := [], nextHandle := 0, constructed := [], destroyed := [] }

/-- `sessions[connection_id]` lookup. -/
def lookupSession : List (String × Session) → String → Option Session
  | [], _ => none
  | (k, v) :: rest, id => if k = id then some v else lookupSession rest id

/-- Store (insert or overwrite) the record for a connection id, keeping the
registry's order; a missing key is appended. -/
def setSession : List (String × Session) → String → Session → List (String × Session)
  | [], id, s => [(id, s)]
  | (k, v) :: rest, id, s =>
      if k = id then (id, s) :: rest else (k, v) :: setSession rest id s

/-- JS truthiness of an optional string field of `req.body`: `undefined`
(`none`) and the empty string are falsy. -/
def truthy : Option String → Bool
  | none => false
  | some s => s ≠ ""

/-- JS `a || b` on optional string fields. -/
def jsOr (a b : Option String) : Option String :=
  if truthy a then a else b

/-- Live adapter handles for a connection id: constructed by `new Client(...)`
for that id and never passed to `client.destroy()`. -/
def liveHandles (st : St) (id : String) : List Nat :=
  (st.constructed.filter (fun p => p.2 = id ∧ ¬ p.1 ∈ st.destroyed)).map Prod.fst

/-- `getSession(connection_id)` (src/index.js:31-44): create the record on
first reference, then stamp `lastActivity = Date.now()`. Returns the record
as the caller sees it together with the updated state. -/
def getSession (st : St) (id : String) (now : Nat) : Session × St :=
  let s :=
    match lookupSession st.sessions id with
    | some s => { s with lastActivity := now }
    | none => freshSession now
  (s, { st with sessions := setSession st.sessions id s })

/-- The duplicate-start guard list of `initClient`
(src/index.js:115: `['connected', 'connecting', 'qr_pending']`). -/
def activeStatuses : List Status := [.connected, .connecting, .qr_pending]

/-- `initClient(connection_id, webhookUrl)` (src/index.js:106-261):
fetch/create the record, store the webhook URL when truthy, and unless a
client exists with an active status, construct a fresh adapter handle with
`status = 'connecting'` and `qr = null`. Returns the record as returned to
the caller together with the updated state. -/
def initClient (st : St) (id : String) (webhookUrl : Option String) (now : Nat) :
    Session × St :=
  let s0 := (getSession st id now).1
  let st1 := (getSession st id now).2
  let s1 := if truthy webhookUrl then { s0 with webhookUrl := webhookUrl } else s0
  if s1.client.isSome ∧ s1.status ∈ activeStatuses then
    (s1, { st1 with sessions := setSession st1.sessions id s1 })
  else
    let h := st1.nextHandle
    let s2 := { s1 with status := .connecting, qr := none, client := some h }
    (s2, { st1 with
             sessions := setSession st1.sessions id s2
             nextHandle := h + 1
             constructed := (h, id) :: st1.constructed })

/-- Adapter lifecycle events, as handled by the `client.on(...)` callbacks
registered in `initClient`. `ready` carries `client.info?.wid?.user || null`
(src/index.js:176); `readyInfoErr` is the `ready` handler's catch branch,
where reading `client.info` threw and `session.phone` is left untouched. -/
inductive Event where
  | qr (dataUrl : String)
  | ready (phone : Option String)
  | readyInfoErr
  | authenticated
  | auth_failure
  | adapterDisconnected
  | change_state (state : String)
  | initError
deriving DecidableEq, Repr

/-- Apply one adapter event's handler to the session record of `id`
(src/index.js:152-220 and the `initialize().catch` at 252-257). The handlers
mutate only the record; none of them calls `client.destroy()`. A record that
does not exist is left alone (its handlers could not have been registered). -/
def applyEvent (st : St) (id : String) (e : Event) : St :=
  match lookupSession st.sessions id with
  | none => st
  | some s =>
    let s' :=
      match e with
      | .qr dataUrl => { s with qr := some dataUrl, status := .qr_pending }
      | .ready phone => { s with status := .connected, qr := none, phone := phone }
      | .readyInfoErr => { s with status := .connected, qr := none }
      | .authenticated => { s with status := .connecting, qr := none }
      | .auth_failure => { s with status := .disconnected, qr := none, client := none }
      | .adapterDisconnected =>
          { s with status := .disconnected, qr := none, phone := none, client := none }
      | .change_state state =>
          if state = "CONFLICT" ∨ state = "UNLAUNCHED" ∨ state = "UNPAIRED" then
            { s with status := .disconnected, qr := none, phone := none }
          else s
      | .initError => { s with status := .disconnected, client := none }
    { st with sessions := setSession st.sessions id s' }

/-- Outcome of the raced `client.getState()` inside `verifyConnectionState`:
it resolved to a state string, the 5s/3s race timer fired first, or it
rejected with an error. -/
inductive StateCheckOutcome where
  | result (state : String)
  | timeout
  | errored (msg : String)
deriving DecidableEq, Repr

/-- Result of `verifyConnectionState` as seen by its callers; `state` is the
raw adapter state string when `getState()` resolved. -/
structure CheckResult where
  connected : Bool
  reason : Option String
  state : Option String
deriving DecidableEq, Repr

/-- `verifyConnectionState(session, connId, timeoutMs)` (src/index.js:299-329):
no client means `{connected:false, reason:'no_client'}` untouched; a resolved
non-`'CONNECTED'` state sets `status = 'disconnected'` (the client handle is
kept); a timeout or error sets `status = 'disconnected'` and drops the client. -/
def verifyConnectionState (s : Session) (o : StateCheckOutcome) :
    CheckResult × Session :=
  match s.client with
  | none => ({ connected := false, reason := some "no_client", state := none }, s)
  | some _ =>
    match o with
    | .result state =>
        if state = "CONNECTED" then
          ({ connected := true, reason := none, state := some state }, s)
        else
          ({ connected := false, reason := some ("state_" ++ state), state := some state },
           { s with status := .disconnected })
    | .timeout =>
        ({ connected := false, reason := some "state_check_error", state := none },
         { s with status := .disconnected, client := none })
    | .errored _ =>
        ({ connected := false, reason := some "state_check_error", state := none },
         { s with status := .disconnected, client := none })

/-- JS `String.prototype.includes`: `sub` occurs contiguously in `s`. -/
def strIncludes (s sub : String) : Bool :=
  (List.range (s.length + 1)).any (fun i => sub.data.isPrefixOf (s.data.drop i))

/-- Response of `POST /api/get-qr` (src/index.js:337-367). -/
inductive QrResp where
  | missingId
  | connectedResp (phone_number : Option String)
  | qrPending (qr : String)
  | pending
deriving DecidableEq, Repr

def QrResp.httpCode : QrResp → Nat
  | .missingId => 400
  | _ => 200

/-- The `error` field of the `/api/get-qr` response body, when present. -/
def QrResp.errorBody : QrResp → Option String
  | .missingId => some "connection_id required"
  | _ => none

/-- `POST /api/get-qr`: resolve the connection id (legacy alias supported),
run `initClient`, and answer from the resulting record. -/
def getQrEndpoint (st : St) (connection_id instance_id webhook_url : Option String)
    (now : Nat) : QrResp × St :=
  let connId := jsOr connection_id instance_id
  if truthy connId then
    let id := connId.getD ""
    let s := (initClient st id webhook_url now).1
    let st1 := (initClient st id webhook_url now).2
    if s.status = .connected then (.connectedResp s.phone, st1)
    else
      match s.qr with
      | some q => (.qrPending q, st1)
      | none => (.pending, st1)
  else (.missingId, st)

/-- Response of `POST /api/status` (src/index.js:370-398). `forcedDisconnected`
is the early return `{status:'disconnected', phone_number:null, has_qr:false,
reason}` taken when the liveness check fails. -/
inductive StatusResp where
  | missingId
  | forcedDisconnected (reason : Option String)
  | ok (status : Status) (phone_number : Option String) (has_qr : Bool)
deriving DecidableEq, Repr

def StatusResp.httpCode : StatusResp → Nat
  | .missingId => 400
  | _ => 200

/-- The `error` field of the `/api/status` response body, when present. -/
def StatusResp.errorBody : StatusResp → Option String
  | .missingId => some "connection_id required"
  | _ => none

/-- `POST /api/status`: when the cached status is `connected` and a client
exists, re-verify against the adapter (outcome supplied as `check`) before
answering from the record. -/
def statusEndpoint (st : St) (connection_id instance_id : Option String)
    (check : StateCheckOutcome) (now : Nat) : StatusResp × St :=
  let connId := jsOr connection_id instance_id
  if truthy connId then
    let id := connId.getD ""
    let s := (getSession st id now).1
    let st1 := (getSession st id now).2
    if s.status = .connected ∧ s.client.isSome then
      let r := (verifyConnectionState s check).1
      let s' := (verifyConnectionState s check).2
      let st2 := { st1 with sessions := setSession st1.sessions id s' }
      if r.connected then (.ok s'.status s'.phone s'.qr.isSome, st2)
      else (.forcedDisconnected r.reason, st2)
    else (.ok s.status s.phone s.qr.isSome, st1)
  else (.missingId, st)

/-- Response of `POST /api/disconnect` (src/index.js:401-428). -/
inductive DisconnectResp where
  | missingId
  | ok
deriving DecidableEq, Repr

def DisconnectResp.httpCode : DisconnectResp → Nat
  | .missingId => 400
  | .ok => 200

/-- The `error` field of the `/api/disconnect` response body, when present. -/
def DisconnectResp.errorBody : DisconnectResp → Option String
  | .missingId => some "connection_id required"
  | .ok => none

/-- `POST /api/disconnect`: best-effort `logout()`/`destroy()` of any client
(modelled as succeeding), then clear the record. -/
def disconnectEndpoint (st : St) (connection_id instance_id : Option String)
    (now : Nat) : DisconnectResp × St :=
  let connId := jsOr connection_id instance_id
  if truthy connId then
    let id := connId.getD ""
    let s := (getSession st id now).1
    let st1 := (getSession st id now).2
    let st2 :=
      match s.client with
      | some h => { st1 with destroyed := h :: st1.destroyed }
      | none => st1
    let s' := { s with client := none, qr := none, status := .disconnected, phone := none }
    (.ok, { st2 with sessions := setSession st2.sessions id s' })
  else (.missingId, st)

/-- Response of `POST /api/reconnect` (src/index.js:431-466). -/
inductive ReconnectResp where
  | missingId
  | reconnecting
deriving DecidableEq, Repr

def ReconnectResp.httpCode : ReconnectResp → Nat
  | .missingId => 400
  | .reconnecting => 200

/-- The `error` field of the `/api/reconnect` response body, when present. -/
def ReconnectResp.errorBody : ReconnectResp → Option String
  | .missingId => some "connection_id required"
  | .reconnecting => none

/-- `POST /api/reconnect`: destroy any existing client, reset the record to
`disconnected`, store a truthy `webhook_url`, and re-run `initClient` with the
stored webhook URL. -/
def reconnectEndpoint (st : St) (connection_id instance_id webhook_url : Option String)
    (now : Nat) : ReconnectResp × St :=
  let connId := jsOr connection_id instance_id
  if truthy connId then
    let id := connId.getD ""
    let s := (getSession st id now).1
    let st1 := (getSession st id now).2
    let st2 :=
      match s.client with
      | some h => { st1 with destroyed := h :: st1.destroyed }
      | none => st1
    let s1 := { s with client := none, status := .disconnected, qr := none }
    let s2 := if truthy webhook_url then { s1 with webhookUrl := webhook_url } else s1
    let st3 := { st2 with sessions := setSession st2.sessions id s2 }
    (.reconnecting, (initClient st3 id s2.webhookUrl now).2)
  else (.missingId, st)

/-- Outcome of the raced `client.sendMessage(...)`: a result object, or a
rejection/timeout carrying the JS error message (the race timer yields
`err "Send message timeout after 30s"`). -/
inductive SendOutcome where
  | ok (messageId : Option String) (timestamp : Nat)
  | err (msg : String)
deriving DecidableEq, Repr

/-- Response of `POST /api/send-message` (src/index.js:469-548). -/
inductive SendResp where
  | missingFields
  | notConnected (status : Status)
  | verifyFailed (reason : Option String)
  | sent (messageId : Option String) (timestamp : Nat)
  | connectionLost
  | sendError (msg : String)
deriving DecidableEq, Repr

def SendResp.httpCode : SendResp → Nat
  | .missingFields => 400
  | .notConnected _ => 400
  | .verifyFailed _ => 400
  | .sent _ _ => 200
  | .connectionLost => 400
  | .sendError _ => 500

/-- Whether the JSON response body carries `needs_reconnect: true`. -/
def SendResp.needsReconnect : SendResp → Bool
  | .notConnected _ => true
  | .verifyFailed _ => true
  | .connectionLost => true
  | _ => false

/-- The `error` field of the JSON response body, when present. -/
def SendResp.errorBody : SendResp → Option String
  | .missingFields => some "connection_id, to, and message required"
  | .notConnected _ => some "Connection not connected"
  | .verifyFailed _ => some "WhatsApp session expired. Please reconnect."
  | .sent _ _ => none
  | .connectionLost => some "Connection lost during send. Please reconnect."
  | .sendError m => some m

/-- Result of one `POST /api/send-message` request: the response, the updated
state, whether `client.sendMessage` was invoked at all, and the chat id that
was passed to it. -/
structure SendResult where
  resp : SendResp
  st : St
  attempted : Bool
  sentTo : Option String
deriving DecidableEq, Repr

/-- `POST /api/send-message`: field validation, basic connectivity check,
liveness re-verification, destination normalization (`@c.us` suffix for bare
numbers), then the bounded send with substring-matched fatal-error handling. -/
def sendMessageEndpoint (st : St) (connection_id instance_id toField message : Option String)
    (check : StateCheckOutcome) (outcome : SendOutcome) (now : Nat) : SendResult :=
  let connId := jsOr connection_id instance_id
  if truthy connId ∧ truthy toField ∧ truthy message then
    let id := connId.getD ""
    let toStr := toField.getD ""
    let s := (getSession st id now).1
    let st1 := (getSession st id now).2
    if s.client.isSome ∧ s.status = .connected then
      let r := (verifyConnectionState s check).1
      let s' := (verifyConnectionState s check).2
      let st2 := { st1 with sessions := setSession st1.sessions id s' }
      if r.connected then
        let chatId :=
          if toStr.data.contains '@' then toStr
          else String.mk (toStr.data.filter Char.isDigit) ++ "@c.us"
        match outcome with
        | .ok mid ts =>
            { resp := .sent mid ts, st := st2, attempted := true, sentTo := some chatId }
        | .err m =>
            if strIncludes m "Protocol error" ∨ strIncludes m "Session closed" then
              let s'' := { s' with status := .disconnected, client := none }
              { resp := .connectionLost
                st := { st2 with sessions := setSession st2.sessions id s'' }
                attempted := true, sentTo := some chatId }
            else
              { resp := .sendError m, st := st2, attempted := true, sentTo := some chatId }
      else
        { resp := .verifyFailed r.reason, st := st2, attempted := false, sentTo := none }
    else
      { resp := .notConnected s.status, st := st1, attempted := false, sentTo := none }
  else
    { resp := .missingFields, st := st, attempted := false, sentTo := none }

/-- Response of `POST /api/keep-alive` (src/index.js:551-572). -/
inductive KeepAliveResp where
  | missingId
  | alive (state : Option String)
  | deadResp (reason : Option String)
  | notConnectedResp (connection_status : Status)
deriving DecidableEq, Repr

def KeepAliveResp.httpCode : KeepAliveResp → Nat
  | .missingId => 400
  | _ => 200

/-- The `error` field of the `/api/keep-alive` response body, when present. -/
def KeepAliveResp.errorBody : KeepAliveResp → Option String
  | .missingId => some "connection_id required"
  | _ => none

/-- `POST /api/keep-alive`: re-verify a cached-`connected` session and report. -/
def keepAliveEndpoint (st : St) (connection_id instance_id : Option String)
    (check : StateCheckOutcome) (now : Nat) : KeepAliveResp × St :=
  let connId := jsOr connection_id instance_id
  if truthy connId then
    let id := connId.getD ""
    let s := (getSession st id now).1
    let st1 := (getSession st id now).2
    if s.client.isSome ∧ s.status = .connected then
      let r := (verifyConnectionState s check).1
      let s' := (verifyConnectionState s check).2
      let st2 := { st1 with sessions := setSession st1.sessions id s' }
      if r.connected then (.alive r.state, st2)
      else (.deadResp r.reason, st2)
    else (.notConnectedResp s.status, st1)
  else (.missingId, st)

/-- The inactivity threshold of the cleanup sweep: 30 minutes in
milliseconds (src/index.js:606). -/
def maxInactive : Nat := 30 * 60 * 1000

/-- Whether the cleanup sweep removes a record: `disconnected` and inactive
for strictly longer than `maxInactive` (src/index.js:609). -/
def evictable (now : Nat) (s : Session) : Prop :=
  s.status = .disconnected ∧ now - s.lastActivity > maxInactive

instance (now : Nat) (s : Session) : Decidable (evictable now s) := by
  unfold evictable; infer_instance

/-- The periodic cleanup sweep (src/index.js:604-619): best-effort `destroy()`
of the clients of evictable records, then `delete sessions[id]` for each. -/
def cleanupSweep (st : St) (now : Nat) : St :=
  { st with
    sessions := st.sessions.filter (fun p => ¬ evictable now p.2)
    destroyed := st.destroyed ++
      (st.sessions.filter (fun p => evictable now p.2)).filterMap (fun p => p.2.client) }

/-! ## Concrete states used to exercise the model -/

/-- A session that completed pairing: connected, with a device identity. -/
def connectedSession : Session :=
  { client := some 0, qr := none, status := .connected
    phone := some "40712345678", webhookUrl := none, lastActivity := 0 }

/-- A server holding exactly the connected session under id `"c1"`. -/
def stConnected : St :=
  { sessions := [("c1", connectedSession)], nextHandle := 1
    constructed := [(0, "c1")], destroyed := [] }

/-- A session waiting for its pairing code to be scanned. -/
def qrPendingSession : Session :=
  { client := some 0, qr := some "QRDATA", status := .qr_pending
    phone := none, webhookUrl := none, lastActivity := 0 }

/-- A server holding exactly the qr-pending session under id `"c1"`. -/
def stQrPending : St :=
  { sessions := [("c1", qrPendingSession)], nextHandle := 1
    constructed := [(0, "c1")], destroyed := [] }

/-- A long-idle disconnected session whose client was never torn down. -/
def staleSession : Session :=
  { client := some 5, qr := none, status := .disconnected
    phone := none, webhookUrl := none, lastActivity := 0 }

/-- A server holding the stale session and the connected one. -/
def stStale : St :=
  { sessions := [("a", staleSession), ("b", connectedSession)], nextHandle := 6
    constructed := [(5, "a"), (0, "b")], destroyed := [] }

/-- Run: a start request for `"c1"` on a fresh server, then a
`change_state 'CONFLICT'` event from its adapter. -/
def afterConflict : St :=
  applyEvent (initClient St.empty "c1" none 0).2 "c1" (.change_state "CONFLICT")

/-- Run: the `afterConflict` state followed by a second start request for
the same connection id. -/
def afterRestart : St :=
  (initClient afterConflict "c1" none 1).2

/-- A server whose only record is the connected session after a timed-out
liveness check. -/
def afterTimeoutSt : St :=
  { sessions := [("c1", (verifyConnectionState connectedSession .timeout).2)]
    nextHandle := 1, constructed := [(0, "c1")], destroyed := [] }

/-! ## Registry lemmas -/

theorem lookupSession_setSession_self :
    ∀ (ss : List (String × Session)) (id : String) (s : Session),
      lookupSession (setSession ss id s) id = some s
  | [], id, s => by simp [setSession, lookupSession]
  | (k, v) :: rest, id, s => by
      by_cases h : k = id
      · simp [setSession, lookupSession, h]
      · simp [setSession, lookupSession, h,
          lookupSession_setSession_self rest id s]

theorem setSession_setSession :
    ∀ (ss : List (String × Session)) (id : String) (s t : Session),
      setSession (setSession ss id s) id t = setSession ss id t
  | [], id, s, t => by simp [setSession]
  | (k, v) :: rest, id, s, t => by
      by_cases h : k = id
      · simp [setSession, h]
      · simp [setSession, h, setSession_setSession rest id s t]

theorem getSession_of_none (st : St) (id : String) (now : Nat)
    (h : lookupSession st.sessions id = none) :
    getSession st id now =
      (freshSession now,
       { st with sessions := setSession st.sessions id (freshSession now) }) := by
  simp [getSession, h]

theorem getSession_of_some (st : St) (id : String) (now : Nat) (s : Session)
    (h : lookupSession st.sessions id = some s) :
    getSession st id now =
      ({ s with lastActivity := now },
       { st with sessions :=
           setSession st.sessions id { s with lastActivity := now } }) := by
  simp [getSession, h]

/-! ## Claim theorems -/

/-- C1: the at-most-one-live-adapter-handle invariant fails on the code. After
a start request for `"c1"` and a `change_state 'CONFLICT'` event, the record is
`disconnected` but still holds handle 0 (the handler omits `session.client =
null` and no `destroy()` is called); the next start request therefore passes
the re-entry guard and constructs handle 1, leaving two constructed,
never-destroyed adapter handles for the same connection identifier. -/
theorem C1_change_state_leaks_duplicate_handle :
    (lookupSession afterConflict.sessions "c1").map Session.status =
      some .disconnected ∧
    (lookupSession afterConflict.sessions "c1").map Session.client =
      some (some 0) ∧
    afterRestart.destroyed = [] ∧
    liveHandles afterRestart "c1" = [1, 0] ∧
    (lookupSession afterRestart.sessions "c1").map Session.client =
      some (some 1) := by
  decide

/-- C2: the `phone` field can be non-null while `status` is not `connected`:
a timed-out liveness check on a connected session forces
`status = 'disconnected'` and drops the client but never clears
`session.phone` (src/index.js:322-328). -/
theorem C2_phone_retained_after_forced_disconnect :
    (verifyConnectionState connectedSession .timeout).2.status = .disconnected ∧
    (verifyConnectionState connectedSession .timeout).2.client = none ∧
    (verifyConnectionState connectedSession .timeout).2.phone =
      some "40712345678" := by
  decide

/-- C4 counterexample: a liveness check that observes the non-connected
adapter state `'UNPAIRED'` force-transitions the record to `disconnected` but
does NOT drop the adapter handle (`session.client` is only cleared in the
catch branch, src/index.js:314-318), refuting the claim's "with its adapter
handle dropped". -/
theorem C4_state_report_keeps_handle :
    (verifyConnectionState connectedSession (.result "UNPAIRED")).1.connected
      = false ∧
    (verifyConnectionState connectedSession (.result "UNPAIRED")).2.status =
      .disconnected ∧
    (verifyConnectionState connectedSession (.result "UNPAIRED")).2.client =
      some 0 := by
  decide

/-- C5 counterexample: the fatal-transport substring match is case-sensitive.
A send failure whose message contains lowercase `"protocol error"` is NOT
matched by the code's `includes('Protocol error')`, so it is surfaced as HTTP
500 and the session stays `connected` with its client — refuting the claim as
stated. -/
theorem C5_lowercase_substring_not_fatal :
    (sendMessageEndpoint stConnected (some "c1") none (some "40712345678")
        (some "hi") (.result "CONNECTED") (.err "protocol error: x") 5).resp =
      .sendError "protocol error: x" ∧
    (sendMessageEndpoint stConnected (some "c1") none (some "40712345678")
        (some "hi") (.result "CONNECTED") (.err "protocol error: x") 5).resp.httpCode
      = 500 ∧
    (lookupSession (sendMessageEndpoint stConnected (some "c1") none
        (some "40712345678") (some "hi") (.result "CONNECTED")
        (.err "protocol error: x") 5).st.sessions "c1").map Session.status =
      some .connected := by
  decide

/-- C6 counterexample: on `/api/send-message` a request missing both
`connection_id` and `instance_id` is answered 400 with error body
`"connection_id, to, and message required"`, not `"connection_id required"`
as the claim demands of every endpoint. -/
theorem C6_send_message_error_body_differs :
    (sendMessageEndpoint St.empty none none (some "40712345678") (some "hi")
        (.result "CONNECTED") (.ok none 0) 7).resp = .missingFields ∧
    (sendMessageEndpoint St.empty none none (some "40712345678") (some "hi")
        (.result "CONNECTED") (.ok none 0) 7).resp.httpCode = 400 ∧
    (sendMessageEndpoint St.empty none none (some "40712345678") (some "hi")
        (.result "CONNECTED") (.ok none 0) 7).resp.errorBody ≠
      some "connection_id required" := by
  decide

/-- C10: a `/api/status` request for a never-referenced connection id
lazily creates a fresh record — no adapter handle, `lastActivity` stamped with
the request time — and answers HTTP 200 with
`{status:'disconnected', phone_number:null, has_qr:false}`. -/
theorem C10_status_lazily_creates_fresh_record
    (st : St) (id : String) (check : StateCheckOutcome) (now : Nat)
    (hid : truthy (some id) = true)
    (hnew : lookupSession st.sessions id = none) :
    (statusEndpoint st (some id) none check now).1 =
      .ok .disconnected none false ∧
    (statusEndpoint st (some id) none check now).1.httpCode = 200 ∧
    lookupSession (statusEndpoint st (some id) none check now).2.sessions id =
      some { client := none, qr := none, status := .disconnected, phone := none
             webhookUrl := none, lastActivity := now } := by
  have hj : jsOr (some id) none = some id := by simp [jsOr, hid]
  have hg := getSession_of_none st id now hnew
  simp [statusEndpoint, hj, hid, hg, freshSession,
    lookupSession_setSession_self, StatusResp.httpCode]

/-- C10 witness: the theorem applied to the empty server and id `"c1"`. -/
theorem C10_status_lazily_creates_fresh_record_witness :
    (statusEndpoint St.empty (some "c1") none (.result "CONNECTED") 42).1 =
      .ok .disconnected none false ∧
    lookupSession
        (statusEndpoint St.empty (some "c1") none (.result "CONNECTED") 42).2.sessions
        "c1" =
      some { client := none, qr := none, status := .disconnected, phone := none
             webhookUrl := none, lastActivity := 42 } := by
  have H := C10_status_lazily_creates_fresh_record St.empty "c1"
    (.result "CONNECTED") 42 (by decide) (by decide)
  exact ⟨H.1, H.2.2⟩

/-- C3: a `/api/send-message` request (all fields supplied) whose session has
no client, or whose status is `disconnected` or `connecting`, is answered
HTTP 400 with `needs_reconnect:true` by the basic check, and
`client.sendMessage` is never invoked. -/
theorem C3_send_rejected_when_not_connected
    (st : St) (c i t m : Option String) (check : StateCheckOutcome)
    (o : SendOutcome) (now : Nat)
    (hc : truthy (jsOr c i) = true) (ht : truthy t = true)
    (hm : truthy m = true)
    (hnc : ((getSession st ((jsOr c i).getD "") now).1).client = none ∨
           ((getSession st ((jsOr c i).getD "") now).1).status = .disconnected ∨
           ((getSession st ((jsOr c i).getD "") now).1).status = .connecting) :
    (sendMessageEndpoint st c i t m check o now).resp =
      .notConnected ((getSession st ((jsOr c i).getD "") now).1).status ∧
    (sendMessageEndpoint st c i t m check o now).resp.httpCode = 400 ∧
    (sendMessageEndpoint st c i t m check o now).resp.needsReconnect = true ∧
    (sendMessageEndpoint st c i t m check o now).attempted = false ∧
    (sendMessageEndpoint st c i t m check o now).sentTo = none := by
  rcases hnc with h | h | h <;>
    simp [sendMessageEndpoint, hc, ht, hm, h,
      SendResp.httpCode, SendResp.needsReconnect]

/-- C3 witness: a fresh connection id (no client) on the empty server. -/
theorem C3_send_rejected_when_not_connected_witness :
    (sendMessageEndpoint St.empty (some "c9") none (some "40712345678")
        (some "hi") (.result "CONNECTED") (.ok none 0) 7).resp =
      .notConnected .disconnected ∧
    (sendMessageEndpoint St.empty (some "c9") none (some "40712345678")
        (some "hi") (.result "CONNECTED") (.ok none 0) 7).resp.httpCode = 400 ∧
    (sendMessageEndpoint St.empty (some "c9") none (some "40712345678")
        (some "hi") (.result "CONNECTED") (.ok none 0) 7).resp.needsReconnect
      = true ∧
    (sendMessageEndpoint St.empty (some "c9") none (some "40712345678")
        (some "hi") (.result "CONNECTED") (.ok none 0) 7).attempted = false := by
  have H := C3_send_rejected_when_not_connected St.empty (some "c9") none
    (some "40712345678") (some "hi") (.result "CONNECTED") (.ok none 0) 7
    (by decide) (by decide) (by decide) (Or.inl (by decide))
  refine ⟨?_, H.2.1, H.2.2.1, H.2.2.2.1⟩
  rw [H.1]
  decide

/-- A `/api/status` query for a record whose cached status is not `connected`
skips the liveness check and reports the record's fields directly. -/
theorem statusEndpoint_of_not_connected (st : St) (id : String) (v : Session)
    (check : StateCheckOutcome) (now : Nat)
    (hid : truthy (some id) = true)
    (hl : lookupSession st.sessions id = some v)
    (hv : v.status ≠ .connected) :
    (statusEndpoint st (some id) none check now).1 =
      .ok v.status v.phone v.qr.isSome := by
  have hj : jsOr (some id) none = some id := by simp [jsOr, hid]
  have hg := getSession_of_some st id now v hl
  simp [statusEndpoint, hj, hid, hg, hv]

/-- C4 (amended): a liveness check on a session holding a client that times
out, errors, or observes a non-connected adapter state always reports failure
and force-transitions the record to `disconnected`; the adapter handle is
dropped when the check timed out or errored but retained when the adapter
merely reported a non-connected state; in either case a subsequent
`/api/status` query for the stored record reports `disconnected`. -/
theorem C4_liveness_failure_forces_disconnected
    (s : Session) (o : StateCheckOutcome)
    (hcl : s.client.isSome = true)
    (hf : o = .timeout ∨ (∃ msg, o = .errored msg) ∨
          ∃ stt, o = .result stt ∧ stt ≠ "CONNECTED") :
    (verifyConnectionState s o).1.connected = false ∧
    (verifyConnectionState s o).2.status = .disconnected ∧
    ((o = .timeout ∨ ∃ msg, o = .errored msg) →
      (verifyConnectionState s o).2.client = none) ∧
    (∀ stt, o = .result stt → (verifyConnectionState s o).2.client = s.client) ∧
    (∀ (st : St) (id : String) (check : StateCheckOutcome) (now : Nat),
      truthy (some id) = true →
      lookupSession st.sessions id = some (verifyConnectionState s o).2 →
      (statusEndpoint st (some id) none check now).1 =
        .ok .disconnected (verifyConnectionState s o).2.phone
          ((verifyConnectionState s o).2.qr.isSome)) := by
  obtain ⟨hdl, hc2⟩ := Option.isSome_iff_exists.mp hcl
  have hst : (verifyConnectionState s o).1.connected = false ∧
      (verifyConnectionState s o).2.status = .disconnected := by
    rcases hf with rfl | ⟨msg, rfl⟩ | ⟨stt, rfl, hne⟩
    · simp [verifyConnectionState, hc2]
    · simp [verifyConnectionState, hc2]
    · simp [verifyConnectionState, hc2, hne]
  refine ⟨hst.1, hst.2, ?_, ?_, ?_⟩
  · rintro (rfl | ⟨msg, rfl⟩) <;> simp [verifyConnectionState, hc2]
  · rintro stt rfl
    rcases hf with h | ⟨msg, h⟩ | ⟨stt2, h, hne⟩ <;> cases h
    simp [verifyConnectionState, hc2, hne]
  · intro st2 id check now hid hl
    have h := statusEndpoint_of_not_connected st2 id _ check now hid hl
      (by rw [hst.2]; decide)
    rw [h, hst.2]

/-- C4 witness: the timed-out check on the connected session, and the status
query on the resulting stored record. -/
theorem C4_liveness_failure_forces_disconnected_witness :
    (verifyConnectionState connectedSession .timeout).1.connected = false ∧
    (verifyConnectionState connectedSession .timeout).2.status =
      .disconnected ∧
    (verifyConnectionState connectedSession .timeout).2.client = none ∧
    (statusEndpoint afterTimeoutSt (some "c1") none (.result "CONNECTED") 7).1 =
      .ok .disconnected (verifyConnectionState connectedSession .timeout).2.phone
        ((verifyConnectionState connectedSession .timeout).2.qr.isSome) := by
  have H := C4_liveness_failure_forces_disconnected connectedSession .timeout
    (by decide) (Or.inl rfl)
  exact ⟨H.1, H.2.1, H.2.2.1 (Or.inl rfl),
    H.2.2.2.2 afterTimeoutSt "c1" (.result "CONNECTED") 7 (by decide) (by decide)⟩

/-- C5 (amended): on a send failure, the fatal-transport match is against the
case-sensitive substrings `"Protocol error"` and `"Session closed"`: a
matching error message forces the session to `disconnected` (client dropped)
in addition to the 400 `needs_reconnect` error; any other failure — including
the bounded send timeout, whose message is `"Send message timeout after 30s"` —
is surfaced as HTTP 500 with the session record unchanged. -/
theorem C5_transport_fatal_substrings
    (st : St) (c i t m : Option String) (emsg : String) (now : Nat)
    (hc : truthy (jsOr c i) = true) (ht : truthy t = true)
    (hm : truthy m = true)
    (hcl : ((getSession st ((jsOr c i).getD "") now).1).client.isSome = true)
    (hstat : ((getSession st ((jsOr c i).getD "") now).1).status = .connected) :
    ((strIncludes emsg "Protocol error" = true ∨
        strIncludes emsg "Session closed" = true) →
      (sendMessageEndpoint st c i t m (.result "CONNECTED") (.err emsg) now).resp
          = .connectionLost ∧
      (sendMessageEndpoint st c i t m (.result "CONNECTED") (.err emsg) now).resp.httpCode
          = 400 ∧
      (sendMessageEndpoint st c i t m (.result "CONNECTED") (.err emsg) now).resp.needsReconnect
          = true ∧
      lookupSession
          (sendMessageEndpoint st c i t m (.result "CONNECTED") (.err emsg) now).st.sessions
          ((jsOr c i).getD "") =
        some { (getSession st ((jsOr c i).getD "") now).1 with
               status := .disconnected, client := none }) ∧
    ((strIncludes emsg "Protocol error" = false ∧
        strIncludes emsg "Session closed" = false) →
      (sendMessageEndpoint st c i t m (.result "CONNECTED") (.err emsg) now).resp
          = .sendError emsg ∧
      (sendMessageEndpoint st c i t m (.result "CONNECTED") (.err emsg) now).resp.httpCode
          = 500 ∧
      lookupSession
          (sendMessageEndpoint st c i t m (.result "CONNECTED") (.err emsg) now).st.sessions
          ((jsOr c i).getD "") =
        some (getSession st ((jsOr c i).getD "") now).1) := by
  obtain ⟨hdl, hc2⟩ :=
    Option.isSome_iff_exists.mp hcl
  constructor
  · intro hmatch
    rcases hmatch with h1 | h1 <;>
      simp [sendMessageEndpoint, hc, ht, hm, hcl, hstat, verifyConnectionState,
        hc2, h1, setSession_setSession, lookupSession_setSession_self,
        SendResp.httpCode, SendResp.needsReconnect]
  · intro ⟨h1, h2⟩
    simp [sendMessageEndpoint, hc, ht, hm, hcl, hstat, verifyConnectionState,
      hc2, h1, h2, setSession_setSession, lookupSession_setSession_self,
      SendResp.httpCode]

/-- C5 witness: a capitalized `"Protocol error"` failure on the connected
session forces `disconnected` with a 400 `needs_reconnect` response. -/
theorem C5_transport_fatal_substrings_witness :
    (sendMessageEndpoint stConnected (some "c1") none (some "40712345678")
        (some "hi") (.result "CONNECTED") (.err "Protocol error: x") 5).resp =
      .connectionLost ∧
    lookupSession
        (sendMessageEndpoint stConnected (some "c1") none (some "40712345678")
          (some "hi") (.result "CONNECTED") (.err "Protocol error: x") 5).st.sessions
        "c1" =
      some { (getSession stConnected "c1" 5).1 with
             status := .disconnected, client := none } := by
  have H := C5_transport_fatal_substrings stConnected (some "c1") none
    (some "40712345678") (some "hi") "Protocol error: x" 5
    (by decide) (by decide) (by decide) (by decide) (by decide)
  have H1 := H.1 (Or.inl (by decide))
  exact ⟨H1.1, H1.2.2.2⟩

/-- C7: on the send path, a destination containing `'@'` is passed to the
adapter's `sendMessage` unchanged, and a destination without `'@'` is passed
with all non-digit characters stripped and `"@c.us"` appended. -/
theorem C7_destination_normalization
    (st : St) (c i t m : Option String) (o : SendOutcome) (now : Nat)
    (hc : truthy (jsOr c i) = true) (ht : truthy t = true)
    (hm : truthy m = true)
    (hcl : ((getSession st ((jsOr c i).getD "") now).1).client.isSome = true)
    (hstat : ((getSession st ((jsOr c i).getD "") now).1).status = .connected) :
    (sendMessageEndpoint st c i t m (.result "CONNECTED") o now).attempted
      = true ∧
    ((t.getD "").data.contains '@' = true →
      (sendMessageEndpoint st c i t m (.result "CONNECTED") o now).sentTo =
        some (t.getD "")) ∧
    ((t.getD "").data.contains '@' = false →
      (sendMessageEndpoint st c i t m (.result "CONNECTED") o now).sentTo =
        some (String.mk ((t.getD "").data.filter Char.isDigit) ++ "@c.us")) := by
  obtain ⟨hdl, hc2⟩ := Option.isSome_iff_exists.mp hcl
  have key : (sendMessageEndpoint st c i t m (.result "CONNECTED") o now).attempted
        = true ∧
      (sendMessageEndpoint st c i t m (.result "CONNECTED") o now).sentTo =
        some (if (t.getD "").data.contains '@' then t.getD ""
              else String.mk ((t.getD "").data.filter Char.isDigit) ++ "@c.us") := by
    cases o with
    | ok mid ts =>
        simp [sendMessageEndpoint, hc, ht, hm, hcl, hstat,
          verifyConnectionState, hc2]
    | err msg =>
        by_cases hP : strIncludes msg "Protocol error" = true ∨
            strIncludes msg "Session closed" = true
        · simp [sendMessageEndpoint, hc, ht, hm, hcl, hstat,
            verifyConnectionState, hc2, hP]
        · simp [sendMessageEndpoint, hc, ht, hm, hcl, hstat,
            verifyConnectionState, hc2, hP]
  refine ⟨key.1, fun hat => ?_, fun hat => ?_⟩
  · rw [key.2, if_pos hat]
  · have hne : ¬((t.getD "").data.contains '@' = true) := by
      rw [hat]; exact Bool.false_ne_true
    rw [key.2, if_neg hne]

/-- C7 witness: the bare number `"40712345678"` is sent to
`"40712345678@c.us"`, and `"abc@g.us"` is passed through unchanged. -/
theorem C7_destination_normalization_witness :
    (sendMessageEndpoint stConnected (some "c1") none (some "40712345678")
        (some "hi") (.result "CONNECTED") (.ok (some "mid") 9) 5).sentTo =
      some "40712345678@c.us" ∧
    (sendMessageEndpoint stConnected (some "c1") none (some "abc@g.us")
        (some "hi") (.result "CONNECTED") (.ok (some "mid") 9) 5).sentTo =
      some "abc@g.us" := by
  have H1 := C7_destination_normalization stConnected (some "c1") none
    (some "40712345678") (some "hi") (.ok (some "mid") 9) 5
    (by decide) (by decide) (by decide) (by decide) (by decide)
  have H2 := C7_destination_normalization stConnected (some "c1") none
    (some "abc@g.us") (some "hi") (.ok (some "mid") 9) 5
    (by decide) (by decide) (by decide) (by decide) (by decide)
  constructor
  · rw [H1.2.2 (by decide)]
    decide
  · exact H2.2.1 (by decide)

/-- C8: `/api/get-qr` on a session whose status is `qr_pending` (client
attached, payload stored) returns the stored payload, allocates no adapter
handle, leaves the lifecycle fields of the record untouched, and is
idempotent: an identical second call returns the same payload and leaves the
server state fixed. -/
theorem C8_get_qr_idempotent_on_qr_pending
    (st : St) (id : String) (s : Session) (hdl : Nat) (q : String)
    (w : Option String) (now : Nat)
    (hid : truthy (some id) = true)
    (hs : lookupSession st.sessions id = some s)
    (hcl : s.client = some hdl) (hst : s.status = .qr_pending)
    (hq : s.qr = some q) :
    (getQrEndpoint st (some id) none w now).1 = .qrPending q ∧
    (getQrEndpoint st (some id) none w now).2.nextHandle = st.nextHandle ∧
    (getQrEndpoint st (some id) none w now).2.constructed = st.constructed ∧
    (getQrEndpoint st (some id) none w now).2.destroyed = st.destroyed ∧
    lookupSession (getQrEndpoint st (some id) none w now).2.sessions id =
      some { s with lastActivity := now
                    webhookUrl := if truthy w then w else s.webhookUrl } ∧
    getQrEndpoint (getQrEndpoint st (some id) none w now).2 (some id) none w now
      = ((getQrEndpoint st (some id) none w now).1,
         (getQrEndpoint st (some id) none w now).2) := by
  have hj : jsOr (some id) none = some id := by simp [jsOr, hid]
  have hg := getSession_of_some st id now s hs
  by_cases htw : truthy w = true
  case pos =>
    have hE : getQrEndpoint st (some id) none w now =
        (.qrPending q,
         { st with sessions :=
            setSession st.sessions id { s with lastActivity := now, webhookUrl := w } }) := by
      simp [getQrEndpoint, initClient, hj, hid, hg, htw, hcl, hst, hq,
        activeStatuses, setSession_setSession]
    have hg2 := getSession_of_some
      { st with sessions :=
          setSession st.sessions id { s with lastActivity := now, webhookUrl := w } }
      id now { s with lastActivity := now, webhookUrl := w }
      (lookupSession_setSession_self _ _ _)
    dsimp only at hg2
    simp only [hcl, hst, hq] at hg2
    have hE2 : getQrEndpoint
        { st with sessions :=
            setSession st.sessions id { s with lastActivity := now, webhookUrl := w } }
        (some id) none w now =
        (.qrPending q,
         { st with sessions :=
            setSession st.sessions id { s with lastActivity := now, webhookUrl := w } }) := by
      simp [getQrEndpoint, initClient, hj, hid, hg2, htw, hcl, hst, hq,
        activeStatuses, setSession_setSession]
    rw [hE]
    refine ⟨rfl, rfl, rfl, rfl, ?_, ?_⟩
    · rw [lookupSession_setSession_self]
      simp [htw]
    · simpa using hE2
  case neg =>
    have hE : getQrEndpoint st (some id) none w now =
        (.qrPending q,
         { st with sessions :=
            setSession st.sessions id { s with lastActivity := now } }) := by
      simp [getQrEndpoint, initClient, hj, hid, hg, htw, hcl, hst, hq,
        activeStatuses, setSession_setSession]
    have hg2 := getSession_of_some
      { st with sessions :=
          setSession st.sessions id { s with lastActivity := now } }
      id now { s with lastActivity := now }
      (lookupSession_setSession_self _ _ _)
    dsimp only at hg2
    simp only [hcl, hst, hq] at hg2
    have hE2 : getQrEndpoint
        { st with sessions :=
            setSession st.sessions id { s with lastActivity := now } }
        (some id) none w now =
        (.qrPending q,
         { st with sessions :=
            setSession st.sessions id { s with lastActivity := now } }) := by
      simp [getQrEndpoint, initClient, hj, hid, hg2, htw, hcl, hst, hq,
        activeStatuses, setSession_setSession]
    rw [hE]
    refine ⟨rfl, rfl, rfl, rfl, ?_, ?_⟩
    · rw [lookupSession_setSession_self]
      simp [htw]
    · simpa using hE2

/-- C8 witness: two identical `get-qr` calls on the stored qr-pending
session. -/
theorem C8_get_qr_idempotent_on_qr_pending_witness :
    (getQrEndpoint stQrPending (some "c1") none none 3).1 =
      .qrPending "QRDATA" ∧
    (getQrEndpoint stQrPending (some "c1") none none 3).2.constructed =
      stQrPending.constructed ∧
    getQrEndpoint (getQrEndpoint stQrPending (some "c1") none none 3).2
        (some "c1") none none 3 =
      ((getQrEndpoint stQrPending (some "c1") none none 3).1,
       (getQrEndpoint stQrPending (some "c1") none none 3).2) := by
  have H := C8_get_qr_idempotent_on_qr_pending stQrPending "c1" qrPendingSession
    0 "QRDATA" none 3 (by decide) (by decide) (by decide) (by decide) (by decide)
  exact ⟨H.1, H.2.2.1, H.2.2.2.2.2⟩

/-- C9: the cleanup sweep keeps a record exactly when it is NOT both
`disconnected` and inactive for more than the 30-minute threshold; a record
whose status is `connected`, `connecting` or `qr_pending` is kept regardless
of its age; and the client of every evicted record is destroyed. -/
theorem C9_idle_eviction (st : St) (now : Nat) (id : String) (s : Session) :
    ((id, s) ∈ (cleanupSweep st now).sessions ↔
      (id, s) ∈ st.sessions ∧
        ¬(s.status = .disconnected ∧ now - s.lastActivity > maxInactive)) ∧
    (s.status ≠ .disconnected →
      ((id, s) ∈ (cleanupSweep st now).sessions ↔ (id, s) ∈ st.sessions)) ∧
    (∀ hdl, (id, s) ∈ st.sessions → evictable now s → s.client = some hdl →
      hdl ∈ (cleanupSweep st now).destroyed) := by
  refine ⟨?_, ?_, ?_⟩
  · simp [cleanupSweep, List.mem_filter, evictable]
    tauto
  · intro hnd
    simp [cleanupSweep, List.mem_filter, evictable, hnd]
  · intro hdl hmem hev hcl
    simp only [cleanupSweep, List.mem_append]
    right
    simp only [List.mem_filterMap]
    refine ⟨(id, s), List.mem_filter.mpr ⟨hmem, ?_⟩, hcl⟩
    simpa [evictable] using hev

/-- C9 witness: at 31 minutes, the long-idle disconnected record is evicted
(its client destroyed) while the connected one is kept despite equal age. -/
theorem C9_idle_eviction_witness :
    ("b", connectedSession) ∈ (cleanupSweep stStale (31 * 60 * 1000)).sessions ∧
    ¬ ("a", staleSession) ∈ (cleanupSweep stStale (31 * 60 * 1000)).sessions ∧
    5 ∈ (cleanupSweep stStale (31 * 60 * 1000)).destroyed := by
  have Ha := C9_idle_eviction stStale (31 * 60 * 1000) "a" staleSession
  have Hb := C9_idle_eviction stStale (31 * 60 * 1000) "b" connectedSession
  refine ⟨?_, ?_, ?_⟩
  · exact (Hb.2.1 (by decide)).mpr (by decide)
  · intro hmem
    exact ((Ha.1.mp hmem).2) (by decide)
  · exact Ha.2.2 5 (by decide) (by decide) (by decide)

/-- C6 (amended): when both `connection_id` and the legacy `instance_id` are
missing (or empty), every endpoint answers HTTP 400 with no state change —
with error body `"connection_id required"` on every endpoint except
`/api/send-message`, whose body is `"connection_id, to, and message
required"`; `instance_id` is accepted interchangeably on every endpoint; and
a truthy `connection_id` takes precedence over `instance_id`. -/
theorem C6_connection_id_validation
    (st : St) (c i w t m : Option String) (check : StateCheckOutcome)
    (o : SendOutcome) (now : Nat) :
    (truthy c = false → truthy i = false →
      getQrEndpoint st c i w now = (.missingId, st) ∧
      QrResp.errorBody .missingId = some "connection_id required" ∧
      QrResp.httpCode .missingId = 400 ∧
      statusEndpoint st c i check now = (.missingId, st) ∧
      StatusResp.errorBody .missingId = some "connection_id required" ∧
      disconnectEndpoint st c i now = (.missingId, st) ∧
      DisconnectResp.errorBody .missingId = some "connection_id required" ∧
      reconnectEndpoint st c i w now = (.missingId, st) ∧
      ReconnectResp.errorBody .missingId = some "connection_id required" ∧
      keepAliveEndpoint st c i check now = (.missingId, st) ∧
      KeepAliveResp.errorBody .missingId = some "connection_id required" ∧
      (sendMessageEndpoint st c i t m check o now).resp = .missingFields ∧
      (sendMessageEndpoint st c i t m check o now).st = st ∧
      (sendMessageEndpoint st c i t m check o now).resp.httpCode = 400 ∧
      SendResp.errorBody .missingFields =
        some "connection_id, to, and message required") ∧
    (getQrEndpoint st none i w now = getQrEndpoint st i none w now ∧
      statusEndpoint st none i check now = statusEndpoint st i none check now ∧
      disconnectEndpoint st none i now = disconnectEndpoint st i none now ∧
      reconnectEndpoint st none i w now = reconnectEndpoint st i none w now ∧
      keepAliveEndpoint st none i check now =
        keepAliveEndpoint st i none check now ∧
      sendMessageEndpoint st none i t m check o now =
        sendMessageEndpoint st i none t m check o now) ∧
    (truthy c = true →
      getQrEndpoint st c i w now = getQrEndpoint st c none w now ∧
      statusEndpoint st c i check now = statusEndpoint st c none check now ∧
      disconnectEndpoint st c i now = disconnectEndpoint st c none now ∧
      reconnectEndpoint st c i w now = reconnectEndpoint st c none w now ∧
      keepAliveEndpoint st c i check now = keepAliveEndpoint st c none check now ∧
      sendMessageEndpoint st c i t m check o now =
        sendMessageEndpoint st c none t m check o now) := by
  refine ⟨?_, ?_, ?_⟩
  · intro hc hi
    have hj : truthy (jsOr c i) = false := by simp [jsOr, hc, hi]
    refine ⟨?_, rfl, rfl, ?_, rfl, ?_, rfl, ?_, rfl, ?_, rfl, ?_, ?_, ?_, rfl⟩ <;>
      simp [getQrEndpoint, statusEndpoint, disconnectEndpoint, reconnectEndpoint,
        keepAliveEndpoint, sendMessageEndpoint, hj, SendResp.httpCode]
  · have hcase : jsOr none i = jsOr i none ∨
        (truthy (jsOr none i) = false ∧ truthy (jsOr i none) = false) := by
      by_cases hti : truthy i = true
      · left
        have h0 : truthy none = false := rfl
        simp [jsOr, h0, hti]
      · right
        constructor <;> simp [jsOr, truthy] at hti ⊢ <;> simp [hti]
    rcases hcase with h | ⟨h1, h2⟩
    · rw [getQrEndpoint, getQrEndpoint, statusEndpoint, statusEndpoint,
        disconnectEndpoint, disconnectEndpoint, reconnectEndpoint,
        reconnectEndpoint, keepAliveEndpoint, keepAliveEndpoint,
        sendMessageEndpoint, sendMessageEndpoint, h]
      exact ⟨rfl, rfl, rfl, rfl, rfl, rfl⟩
    · refine ⟨?_, ?_, ?_, ?_, ?_, ?_⟩ <;>
        simp [getQrEndpoint, statusEndpoint, disconnectEndpoint,
          reconnectEndpoint, keepAliveEndpoint, sendMessageEndpoint, h1, h2]
  · intro hc
    have h : jsOr c i = jsOr c none := by simp [jsOr, hc]
    rw [getQrEndpoint, getQrEndpoint, statusEndpoint, statusEndpoint,
      disconnectEndpoint, disconnectEndpoint, reconnectEndpoint,
      reconnectEndpoint, keepAliveEndpoint, keepAliveEndpoint,
      sendMessageEndpoint, sendMessageEndpoint, h]
    exact ⟨rfl, rfl, rfl, rfl, rfl, rfl⟩

/-- C6 witness: the missing-id case at concrete empty fields, and precedence
at `connection_id = "a"`, `instance_id = "b"`. -/
theorem C6_connection_id_validation_witness :
    getQrEndpoint St.empty none none none 7 = (.missingId, St.empty) ∧
    (sendMessageEndpoint St.empty none (some "") (some "4") (some "x")
        (.result "CONNECTED") (.ok none 0) 7).resp = .missingFields ∧
    statusEndpoint St.empty (some "a") (some "b") (.result "CONNECTED") 7 =
      statusEndpoint St.empty (some "a") none (.result "CONNECTED") 7 ∧
    disconnectEndpoint St.empty none (some "b") 7 =
      disconnectEndpoint St.empty (some "b") none 7 := by
  have H1 := C6_connection_id_validation St.empty none none none none none
    (.result "CONNECTED") (.ok none 0) 7
  have H2 := C6_connection_id_validation St.empty none (some "") none
    (some "4") (some "x") (.result "CONNECTED") (.ok none 0) 7
  have H3 := C6_connection_id_validation St.empty (some "a") (some "b") none
    none none (.result "CONNECTED") (.ok none 0) 7
  have H4 := C6_connection_id_validation St.empty none (some "b") none
    none none (.result "CONNECTED") (.ok none 0) 7
  exact ⟨(H1.1 (by decide) (by decide)).1,
    (H2.1 (by decide) (by decide)).2.2.2.2.2.2.2.2.2.2.2.1,
    (H3.2.2 (by decide)).2.1,
    H4.2.1.2.2.1⟩

end Bridge
